import Mathlib

/-
Verification of the charity child-sponsorship backend (src/main.py,
src/schemas.py): a shallow embedding of the document store and of the
HTTP handlers, followed by theorems about the store-ownership model.

Modelling conventions:
- MongoDB ObjectIds are modelled by natural numbers; the string rendering
  used on the wire (str(_id), sponsored_by, user.id) is modelled by the
  same number, since stringification of distinct ids is injective.  The
  response shaping step that renders an id as a string is kept (the `id`
  field of the *Out structures is `toString` of the key).
- Monetary float amounts are modelled by rationals.
- Randomness (api keys, password-hash placeholders) and generated ids are
  passed in as explicit arguments / drawn from a store counter.
- An HTTP handler is a function from the store (plus the resolved
  AuthUser, mirroring the Depends(get_current_user) parameter) to a
  result paired with the post-state of the store.  A raised exception is
  an `Except.error`; since every handler performs its reads before its
  single write, the store returned on the error paths is the input store.
- The id-format check `oid` (HTTP 400 on a malformed ObjectId string) is
  outside the embedding: ids are numbers, so parsing always succeeds.
-/

namespace Charity

/-- Sponsor document (schemas.py, class Sponsor). -/
structure Sponsor where
  name : String
  email : String
  password_hash : String
  country : Option String := none
  bio : Option String := none
  avatar_url : Option String := none
  api_key : Option String := none
  is_active : Bool := true
deriving DecidableEq

/-- Child document (schemas.py, class Child); pydantic bounds age by
ge=0, le=18, enforced at construction in `create_child`. -/
structure Child where
  name : String
  age : Int
  country : String
  bio : Option String := none
  photo_url : Option String := none
  sponsored : Bool := false
  sponsored_by : Option Nat := none
deriving DecidableEq

/-- Donation document (schemas.py, class Donation); pydantic bounds
amount by ge=0, enforced at construction in `mkDonation`. -/
structure Donation where
  sponsor_id : Nat
  child_id : Nat
  amount : ℚ
  currency : String := "USD"
  month : Option String := none
  status : String := "completed"
deriving DecidableEq

/-- Child-update document (schemas.py, class Update). -/
structure Update where
  child_id : Nat
  title : String
  content : Option String := none
  photo_url : Option String := none
deriving DecidableEq

/-- The identity resolved by get_current_user from the X-API-Key header. -/
structure AuthUser where
  id : Nat
  email : String
deriving DecidableEq

/-- Failure outcome of a handler: either an HTTPException carrying its
status code and detail message, or a pydantic ValidationError raised while
constructing a schema model inside the handler body (FastAPI surfaces the
latter as an unhandled server error, not as a client-status HTTPException). -/
inductive Err where
  | http (status : Nat) (detail : String)
  | validation
deriving DecidableEq

/-- The document store: one collection per schema, each a list of
(id, document) pairs in insertion order, plus a counter supplying fresh
ids for inserted documents. -/
structure Store where
  sponsors : List (Nat × Sponsor) := []
  children : List (Nat × Child) := []
  donations : List (Nat × Donation) := []
  updates : List (Nat × Update) := []
  nextId : Nat := 0
deriving DecidableEq

/-- pymongo find_one on an _id equality query: the first document whose id
matches, if any. -/
def findDoc (l : List (Nat × α)) (i : Nat) : Option α :=
  match l with
  | [] => none
  | (k, v) :: t => if k = i then some v else findDoc t i

/-- pymongo update_one with a $set: replaces the first document whose id
matches, leaving the rest of the collection unchanged. -/
def setAssoc (l : List (Nat × α)) (i : Nat) (v : α) : List (Nat × α) :=
  match l with
  | [] => []
  | (k, w) :: t => if k = i then (k, v) :: t else (k, w) :: setAssoc t i v

/-- pymongo find_one on an email equality query over the sponsor
collection. -/
def findByEmail (l : List (Nat × Sponsor)) (e : String) : Option (Nat × Sponsor) :=
  match l with
  | [] => none
  | (k, sp) :: t => if sp.email = e then some (k, sp) else findByEmail t e

/-- Modelled from the spec: database.py (imported by main.py but not under
src/) provides create_document, which inserts one document into a
collection and returns its freshly generated unique identifier.  Insertion
appends at the end; the fresh id is drawn from the store counter. -/
def createDoc (l : List (Nat × α)) (n : Nat) (v : α) : List (Nat × α) :=
  l ++ [(n, v)]

/-- Modelled from the spec: database.py (imported by main.py but not under
src/) provides get_documents, which returns every document of a collection
matching an equality query, in store order. -/
def getDocs (l : List (Nat × α)) (p : Nat × α → Bool) : List (Nat × α) :=
  l.filter p

/-- Body of POST /auth/signup. -/
structure SignupRequest where
  name : String
  email : String
  password : String
  country : Option String := none
deriving DecidableEq

/-- Response of the two auth endpoints. -/
structure AuthResponse where
  api_key : String
  sponsor_id : Nat
  name : String
deriving DecidableEq

/-- POST /auth/signup (main.py signup): refuses an already registered
email with HTTPException 400, otherwise stores a new Sponsor carrying the
freshly generated api key and placeholder password hash (both random in
the source, hence arguments here) and returns the key, id and name. -/
def signup (s : Store) (p : SignupRequest) (apiKey passwordHash : String) :
    Except Err AuthResponse × Store :=
  match findByEmail s.sponsors p.email with
  | some _ => (.error (Err.http 400 ("Email already registered")), s)
  | none =>
    let sp : Sponsor :=
      { name := p.name, email := p.email, password_hash := passwordHash,
        country := p.country, api_key := some apiKey }
    (.ok { api_key := apiKey, sponsor_id := s.nextId, name := p.name },
     { s with sponsors := createDoc s.sponsors s.nextId sp, nextId := s.nextId + 1 })

/-- Python truthiness of doc.get("api_key"): None and the empty string are
falsy. -/
def apiKeyTruthy : Option String → Bool
  | none => false
  | some k => decide (k ≠ "")

/-- POST /auth/signin (main.py signin): matches by email only; 404 when no
sponsor has the email; lazily assigns a fresh api key (the `newKey`
argument models the random draw) when the stored one is absent or falsy. -/
def signin (s : Store) (email newKey : String) : Except Err AuthResponse × Store :=
  match findByEmail s.sponsors email with
  | none => (.error (Err.http 404 ("Account not found")), s)
  | some (i, sp) =>
    if apiKeyTruthy sp.api_key then
      (.ok { api_key := sp.api_key.getD "", sponsor_id := i, name := sp.name }, s)
    else
      (.ok { api_key := newKey, sponsor_id := i, name := sp.name },
       { s with sponsors := setAssoc s.sponsors i { sp with api_key := some newKey } })

/-- Body of POST /children. -/
structure ChildCreate where
  name : String
  age : Int
  country : String
  bio : Option String := none
  photo_url : Option String := none
deriving DecidableEq

/-- The Child document built from a POST /children payload: sponsored and
sponsored_by take their schema defaults (false and null). -/
def childOfCreate (p : ChildCreate) : Child :=
  { name := p.name, age := p.age, country := p.country,
    bio := p.bio, photo_url := p.photo_url }

/-- POST /children (main.py create_child): any authenticated caller;
builds a Child from the payload (pydantic validates age, ge=0 le=18, at
construction; sponsored and sponsored_by take their schema defaults) and
inserts it, returning the new id. -/
def create_child (s : Store) (_u : AuthUser) (p : ChildCreate) : Except Err Nat × Store :=
  if 0 ≤ p.age ∧ p.age ≤ 18 then
    (.ok s.nextId,
     { s with children := createDoc s.children s.nextId (childOfCreate p), nextId := s.nextId + 1 })
  else (.error Err.validation, s)

/-- A child document as returned on the wire: _id popped and rendered as
the string field id. -/
structure ChildOut where
  id : String
  name : String
  age : Int
  country : String
  bio : Option String
  photo_url : Option String
  sponsored : Bool
  sponsored_by : Option Nat
deriving DecidableEq

/-- Response shaping of a stored child: d["id"] = str(d.pop("_id")). -/
def childOut (i : Nat) (c : Child) : ChildOut :=
  { id := toString i, name := c.name, age := c.age, country := c.country,
    bio := c.bio, photo_url := c.photo_url, sponsored := c.sponsored,
    sponsored_by := c.sponsored_by }

/-- GET /children (main.py list_children): no authentication.  The query
is built from the optional filters; `if country:` is Python truthiness, so
a supplied empty string adds no country constraint, while
`sponsored is not None` adds the flag constraint for both True and False.
Matching documents are returned with ids rendered as strings. -/
def list_children (s : Store) (country : Option String) (sponsored : Option Bool) :
    List ChildOut :=
  let qCountry : Option String :=
    match country with
    | some c => if c = "" then none else some c
    | none => none
  let docs := getDocs s.children (fun x =>
    (match qCountry with
     | some c => decide (x.2.country = c)
     | none => true) &&
    (match sponsored with
     | some b => decide (x.2.sponsored = b)
     | none => true))
  docs.map (fun x => childOut x.1 x.2)

/-- POST /sponsor (main.py sponsor_child): 404 when the child id does not
resolve; HTTPException 400 when the child is already sponsored; otherwise
one update_one setting sponsored := true and sponsored_by := caller id. -/
def sponsor_child (s : Store) (u : AuthUser) (childId : Nat) : Except Err Unit × Store :=
  match findDoc s.children childId with
  | none => (.error (Err.http 404 ("Child not found")), s)
  | some c =>
    if c.sponsored then (.error (Err.http 400 ("Child already sponsored")), s)
    else
      let c' : Child := { c with sponsored := true, sponsored_by := some u.id }
      (.ok (), { s with children := setAssoc s.children childId c' })

/-- Body of POST /donations; currency defaults to "USD" when omitted. -/
structure DonationCreate where
  childId : Nat
  amount : ℚ
  currency : String := "USD"
  month : Option String := none
deriving DecidableEq

/-- The Donation document the handler builds from an owner's payload:
sponsor_id is the caller, status is passed as "completed". -/
def donationOfCreate (u : AuthUser) (p : DonationCreate) : Donation :=
  { sponsor_id := u.id, child_id := p.childId, amount := p.amount,
    currency := p.currency, month := p.month, status := "completed" }

/-- Construction of a Donation document (schemas.py): pydantic validates
amount with ge=0, raising ValidationError on a negative amount; status is
passed as "completed" by the handler. -/
def mkDonation (sponsorId childId : Nat) (amount : ℚ) (currency : String)
    (month : Option String) : Except Err Donation :=
  if amount < 0 then .error Err.validation
  else .ok { sponsor_id := sponsorId, child_id := childId, amount := amount,
             currency := currency, month := month, status := "completed" }

/-- POST /donations (main.py create_donation): 404 when the child does not
resolve; 403 when the caller is not the child's owning sponsor; then the
Donation document is constructed (pydantic amount check) and inserted. -/
def create_donation (s : Store) (u : AuthUser) (p : DonationCreate) :
    Except Err Nat × Store :=
  match findDoc s.children p.childId with
  | none => (.error (Err.http 404 ("Child not found")), s)
  | some c =>
    if c.sponsored_by ≠ some u.id then
      (.error (Err.http 403 ("You do not sponsor this child")), s)
    else
      match mkDonation u.id p.childId p.amount p.currency p.month with
      | .error e => (.error e, s)
      | .ok d =>
        (.ok s.nextId,
         { s with donations := createDoc s.donations s.nextId d, nextId := s.nextId + 1 })

/-- A donation document as returned on the wire. -/
structure DonationOut where
  id : String
  sponsor_id : Nat
  child_id : Nat
  amount : ℚ
  currency : String
  month : Option String
  status : String
deriving DecidableEq

/-- Response shaping of a stored donation. -/
def donationOut (i : Nat) (d : Donation) : DonationOut :=
  { id := toString i, sponsor_id := d.sponsor_id, child_id := d.child_id,
    amount := d.amount, currency := d.currency, month := d.month, status := d.status }

/-- GET /donations (main.py list_donations): the caller's own donations. -/
def list_donations (s : Store) (u : AuthUser) : List DonationOut :=
  (getDocs s.donations (fun x => decide (x.2.sponsor_id = u.id))).map
    (fun x => donationOut x.1 x.2)

/-- Body of POST /updates. -/
structure UpdateCreate where
  childId : Nat
  title : String
  content : Option String := none
  photo_url : Option String := none
deriving DecidableEq

/-- POST /updates (main.py create_update): 404 when the child does not
resolve; 403 when the caller is not the owning sponsor; otherwise the
Update document is inserted. -/
def create_update (s : Store) (u : AuthUser) (p : UpdateCreate) :
    Except Err Nat × Store :=
  match findDoc s.children p.childId with
  | none => (.error (Err.http 404 ("Child not found")), s)
  | some c =>
    if c.sponsored_by ≠ some u.id then
      (.error (Err.http 403 ("You do not sponsor this child")), s)
    else
      let upd : Update :=
        { child_id := p.childId, title := p.title, content := p.content,
          photo_url := p.photo_url }
      (.ok s.nextId,
       { s with updates := createDoc s.updates s.nextId upd, nextId := s.nextId + 1 })

/-- An update document as returned on the wire. -/
structure UpdateOut where
  id : String
  child_id : Nat
  title : String
  content : Option String
  photo_url : Option String
deriving DecidableEq

/-- Response shaping of a stored update. -/
def updateOut (i : Nat) (u : Update) : UpdateOut :=
  { id := toString i, child_id := u.child_id, title := u.title,
    content := u.content, photo_url := u.photo_url }

/-- GET /children/{child_id}/updates (main.py list_updates): 404 when the
child does not resolve, 403 unless the caller owns the child, otherwise
every update referencing the child.  Read-only. -/
def list_updates (s : Store) (u : AuthUser) (childId : Nat) :
    Except Err (List UpdateOut) :=
  match findDoc s.children childId with
  | none => .error (Err.http 404 ("Child not found"))
  | some c =>
    if c.sponsored_by ≠ some u.id then
      .error (Err.http 403 ("You do not sponsor this child"))
    else
      .ok ((getDocs s.updates (fun x => decide (x.2.child_id = childId))).map
        (fun x => updateOut x.1 x.2))

/-- Response of GET /me. -/
structure Profile where
  id : Nat
  name : String
  email : String
  avatar_url : Option String
  children : List ChildOut
  stats_children : Nat
  stats_total_donated : ℚ
deriving DecidableEq

/-- GET /me (main.py my_profile): 404 when the caller's sponsor record is
missing; otherwise aggregates the caller's children (count) and donations
(sum of amounts) into stats.  Every store access is a read, so the store
component of the result is the input store. -/
def my_profile (s : Store) (u : AuthUser) : Except Err Profile × Store :=
  match findDoc s.sponsors u.id with
  | none => (.error (Err.http 404 ("Profile not found")), s)
  | some sp =>
    let children := getDocs s.children (fun x => decide (x.2.sponsored_by = some u.id))
    let donations := getDocs s.donations (fun x => decide (x.2.sponsor_id = u.id))
    (.ok { id := u.id, name := sp.name, email := sp.email, avatar_url := sp.avatar_url,
           children := children.map (fun x => childOut x.1 x.2),
           stats_children := children.length,
           stats_total_donated := (donations.map (fun x => x.2.amount)).sum }, s)

/-- A store-mutating request, with the nondeterministic inputs (identity
resolved from the api key, random keys and hashes, payload) as data. -/
inductive Action where
  | signupA (p : SignupRequest) (apiKey passwordHash : String)
  | signinA (email newKey : String)
  | createChildA (u : AuthUser) (p : ChildCreate)
  | sponsorChildA (u : AuthUser) (childId : Nat)
  | createDonationA (u : AuthUser) (p : DonationCreate)
  | createUpdateA (u : AuthUser) (p : UpdateCreate)
  | myProfileA (u : AuthUser)

/-- The store after serving one request (the read-only endpoints are
functions of the store and appear only through my_profile, which threads
the store unchanged). -/
def applyAction (s : Store) (a : Action) : Store :=
  match a with
  | .signupA p k ph => (signup s p k ph).2
  | .signinA e k => (signin s e k).2
  | .createChildA u p => (create_child s u p).2
  | .sponsorChildA u cid => (sponsor_child s u cid).2
  | .createDonationA u p => (create_donation s u p).2
  | .createUpdateA u p => (create_update s u p).2
  | .myProfileA u => (my_profile s u).2

/-- The empty store the service starts from. -/
def initStore : Store := {}

/-- Store states reachable from the empty store by serving requests. -/
inductive Reachable : Store → Prop where
  | init : Reachable initStore
  | step (a : Action) {s : Store} : Reachable s → Reachable (applyAction s a)

/-- The child-collection invariant: a child is flagged sponsored exactly
when its owning-sponsor reference is set. -/
def ChildInv (s : Store) : Prop :=
  ∀ x ∈ s.children, (x.2.sponsored = true ↔ x.2.sponsored_by ≠ none)

/-- The country filter of GET /children as the spec words it, adjusted for
Python truthiness: a supplied empty string constrains nothing. -/
def countryPass (q : Option String) (c : Child) : Bool :=
  match q with
  | none => true
  | some v => decide (v = "") || decide (c.country = v)

/-- The sponsored-flag filter of GET /children as the spec words it. -/
def sponsoredPass (q : Option Bool) (c : Child) : Bool :=
  match q with
  | none => true
  | some b => decide (c.sponsored = b)

/-- Concrete fixture: a registered sponsor. -/
def aliceSponsor : Sponsor :=
  { name := "Alice", email := "a@x.com", password_hash := "h", api_key := some ("k1") }

/-- Concrete fixture: the identity resolved for aliceSponsor's api key. -/
def alice : AuthUser := { id := 0, email := "a@x.com" }

/-- Concrete fixture: an authenticated caller who owns nothing in storeA. -/
def mallory : AuthUser := { id := 9, email := "m@x.com" }

/-- Concrete fixture: an unsponsored child. -/
def kidFree : Child := { name := "Kid", age := 7, country := "US" }

/-- Concrete fixture: a child sponsored by alice. -/
def kidOwned : Child :=
  { name := "Kid", age := 7, country := "US", sponsored := true, sponsored_by := some 0 }

/-- Concrete fixture store: alice is registered, owns child 1, child 2 is
free, donation 3 is alice's (amount 5) and donation 4 belongs to another
sponsor (amount 100). -/
def storeA : Store :=
  { sponsors := [(0, aliceSponsor)],
    children := [(1, kidOwned), (2, kidFree)],
    donations := [(3, { sponsor_id := 0, child_id := 1, amount := 5 }),
                  (4, { sponsor_id := 9, child_id := 1, amount := 100 })],
    nextId := 5 }

/-- Concrete fixture: a store reached from the empty store by creating a
child and then claiming it for alice. -/
def reachedStore : Store :=
  applyAction
    (applyAction initStore (.createChildA alice ({ name := "Kid", age := 7, country := "US" })))
    (.sponsorChildA alice 0)

theorem findDoc_append_left {α : Type} (l l' : List (Nat × α)) (i : Nat) (c : α)
    (h : findDoc l i = some c) : findDoc (l ++ l') i = some c := by
  induction l with
  | nil => simp [findDoc] at h
  | cons x t ih =>
    obtain ⟨k, v⟩ := x
    by_cases hk : k = i
    · simpa [findDoc, hk] using h
    · simp only [findDoc, List.cons_append, if_neg hk] at h ⊢
      exact ih h

theorem findDoc_setAssoc_self {α : Type} (l : List (Nat × α)) (i : Nat) (v w : α)
    (h : findDoc l i = some w) : findDoc (setAssoc l i v) i = some v := by
  induction l with
  | nil => simp [findDoc] at h
  | cons x t ih =>
    obtain ⟨k, u⟩ := x
    by_cases hk : k = i
    · simp [findDoc, setAssoc, hk]
    · simp only [findDoc, setAssoc, if_neg hk] at h ⊢
      exact ih h

theorem findDoc_setAssoc_ne {α : Type} (l : List (Nat × α)) (i j : Nat) (v : α)
    (hij : j ≠ i) : findDoc (setAssoc l i v) j = findDoc l j := by
  induction l with
  | nil => simp [setAssoc]
  | cons x t ih =>
    obtain ⟨k, u⟩ := x
    by_cases hk : k = i
    · subst hk
      have hk' : (k = j) = False := eq_false (fun h => hij h.symm)
      simp [findDoc, setAssoc, hk']
    · simp only [setAssoc, if_neg hk, findDoc]
      by_cases hkj : k = j <;> simp [hkj, ih]

theorem mem_setAssoc {α : Type} (l : List (Nat × α)) (i : Nat) (v : α) (x : Nat × α)
    (hx : x ∈ setAssoc l i v) : x ∈ l ∨ x = (i, v) := by
  induction l with
  | nil => simp [setAssoc] at hx
  | cons y t ih =>
    obtain ⟨k, u⟩ := y
    by_cases hk : k = i
    · subst hk
      simp only [setAssoc, if_pos rfl] at hx
      rcases List.mem_cons.mp hx with h | h
      · exact Or.inr h
      · exact Or.inl (List.mem_cons_of_mem _ h)
    · simp only [setAssoc, if_neg hk] at hx
      rcases List.mem_cons.mp hx with h | h
      · exact Or.inl (h ▸ List.mem_cons_self _ _)
      · rcases ih h with h' | h'
        · exact Or.inl (List.mem_cons_of_mem _ h')
        · exact Or.inr h'

theorem findDoc_mem {α : Type} (l : List (Nat × α)) (i : Nat) (c : α)
    (h : findDoc l i = some c) : (i, c) ∈ l := by
  induction l with
  | nil => simp [findDoc] at h
  | cons x t ih =>
    obtain ⟨k, v⟩ := x
    by_cases hk : k = i
    · subst hk
      simp [findDoc] at h
      exact h ▸ List.mem_cons_self _ _
    · simp only [findDoc, if_neg hk] at h
      exact List.mem_cons_of_mem _ (ih h)

theorem findByEmail_isSome (l : List (Nat × Sponsor)) (e : String)
    (h : ∃ x ∈ l, x.2.email = e) : ∃ y, findByEmail l e = some y := by
  induction l with
  | nil => simp at h
  | cons x t ih =>
    obtain ⟨k, sp⟩ := x
    by_cases he : sp.email = e
    · exact ⟨(k, sp), by simp [findByEmail, he]⟩
    · simp only [findByEmail, if_neg he]
      rcases h with ⟨y, hy, hye⟩
      rcases List.mem_cons.mp hy with h' | h'
      · rw [h'] at hye
        exact absurd hye he
      · exact ih ⟨y, h', hye⟩

theorem signup_children_eq (s : Store) (p : SignupRequest) (k ph : String) :
    ((signup s p k ph).2).children = s.children := by
  rcases hfb : findByEmail s.sponsors p.email with _ | y <;> simp [signup, hfb]

theorem signin_children_eq (s : Store) (e k : String) :
    ((signin s e k).2).children = s.children := by
  rcases hfb : findByEmail s.sponsors e with _ | y
  · simp [signin, hfb]
  · obtain ⟨i, sp⟩ := y
    by_cases ht : apiKeyTruthy sp.api_key <;> simp [signin, hfb, ht]

theorem create_child_children (s : Store) (u : AuthUser) (p : ChildCreate) :
    ((create_child s u p).2).children = s.children ∨
    ∃ c : Child, c.sponsored = false ∧ c.sponsored_by = none ∧
      ((create_child s u p).2).children = s.children ++ [(s.nextId, c)] := by
  by_cases hv : 0 ≤ p.age ∧ p.age ≤ 18
  · exact Or.inr ⟨childOfCreate p, rfl, rfl, by simp [create_child, hv, createDoc]⟩
  · exact Or.inl (by simp [create_child, hv])

theorem sponsor_child_children (s : Store) (u : AuthUser) (cid : Nat) :
    ((sponsor_child s u cid).2).children = s.children ∨
    ∃ c : Child, findDoc s.children cid = some c ∧ c.sponsored = false ∧
      ((sponsor_child s u cid).2).children =
        setAssoc s.children cid ({ c with sponsored := true, sponsored_by := some u.id }) := by
  rcases hfd : findDoc s.children cid with _ | c
  · exact Or.inl (by simp [sponsor_child, hfd])
  · cases hsp : c.sponsored
    · exact Or.inr ⟨c, rfl, hsp, by simp [sponsor_child, hfd, hsp]⟩
    · exact Or.inl (by simp [sponsor_child, hfd, hsp])

theorem create_donation_children (s : Store) (u : AuthUser) (p : DonationCreate) :
    ((create_donation s u p).2).children = s.children := by
  rcases hfd : findDoc s.children p.childId with _ | c
  · simp [create_donation, hfd]
  · by_cases hsp : c.sponsored_by = some u.id
    · by_cases hneg : p.amount < 0 <;>
        simp [create_donation, hfd, hsp, mkDonation, hneg]
    · simp [create_donation, hfd, hsp]

theorem create_update_children (s : Store) (u : AuthUser) (p : UpdateCreate) :
    ((create_update s u p).2).children = s.children := by
  rcases hfd : findDoc s.children p.childId with _ | c
  · simp [create_update, hfd]
  · by_cases hsp : c.sponsored_by = some u.id <;> simp [create_update, hfd, hsp]

theorem my_profile_store (s : Store) (u : AuthUser) : (my_profile s u).2 = s := by
  rcases hfd : findDoc s.sponsors u.id with _ | sp <;> simp [my_profile, hfd]

theorem childInv_applyAction (s : Store) (a : Action) (hs : ChildInv s) :
    ChildInv (applyAction s a) := by
  intro x hx
  cases a with
  | signupA p k ph =>
    simp only [applyAction] at hx
    rw [signup_children_eq] at hx
    exact hs x hx
  | signinA e k =>
    simp only [applyAction] at hx
    rw [signin_children_eq] at hx
    exact hs x hx
  | createChildA u p =>
    simp only [applyAction] at hx
    rcases create_child_children s u p with h | ⟨c', h1, h2, h⟩
    · rw [h] at hx
      exact hs x hx
    · rw [h] at hx
      rcases List.mem_append.mp hx with h' | h'
      · exact hs x h'
      · rw [List.mem_singleton.mp h']
        simp [h1, h2]
  | sponsorChildA u cid =>
    simp only [applyAction] at hx
    rcases sponsor_child_children s u cid with h | ⟨c', hfd, hfalse, h⟩
    · rw [h] at hx
      exact hs x hx
    · rw [h] at hx
      rcases mem_setAssoc _ _ _ _ hx with h' | h'
      · exact hs x h'
      · rw [h']
        simp
  | createDonationA u p =>
    simp only [applyAction] at hx
    rw [create_donation_children] at hx
    exact hs x hx
  | createUpdateA u p =>
    simp only [applyAction] at hx
    rw [create_update_children] at hx
    exact hs x hx
  | myProfileA u =>
    simp only [applyAction] at hx
    rw [my_profile_store] at hx
    exact hs x hx

theorem reachable_childInv (s : Store) (hs : Reachable s) : ChildInv s := by
  induction hs with
  | init =>
    intro x hx
    simp [initStore] at hx
  | step a hr ih => exact childInv_applyAction _ a ih

theorem findDoc_children_applyAction (s : Store) (hinv : ChildInv s) (a : Action)
    (i : Nat) (c : Child) (hc : findDoc s.children i = some c)
    (hsp : c.sponsored_by ≠ none) :
    findDoc ((applyAction s a).children) i = some c := by
  cases a with
  | signupA p k ph =>
    simp only [applyAction]
    rw [signup_children_eq]
    exact hc
  | signinA e k =>
    simp only [applyAction]
    rw [signin_children_eq]
    exact hc
  | createChildA u p =>
    simp only [applyAction]
    rcases create_child_children s u p with h | ⟨c', _, _, h⟩
    · rw [h]
      exact hc
    · rw [h]
      exact findDoc_append_left _ _ _ _ hc
  | sponsorChildA u cid =>
    simp only [applyAction]
    rcases sponsor_child_children s u cid with h | ⟨c', hfd, hfalse, h⟩
    · rw [h]
      exact hc
    · rw [h]
      by_cases hic : i = cid
      · subst hic
        rw [hc] at hfd
        have hcc : c = c' := Option.some.inj hfd
        rw [← hcc] at hfalse
        have htrue : c.sponsored = true := (hinv (i, c) (findDoc_mem _ _ _ hc)).mpr hsp
        rw [htrue] at hfalse
        cases hfalse
      · rw [findDoc_setAssoc_ne _ _ _ _ hic]
        exact hc
  | createDonationA u p =>
    simp only [applyAction]
    rw [create_donation_children]
    exact hc
  | createUpdateA u p =>
    simp only [applyAction]
    rw [create_update_children]
    exact hc
  | myProfileA u =>
    simp only [applyAction]
    rw [my_profile_store]
    exact hc

/-- C1: For every authenticated caller whose sponsor record exists in the
store, GET /me returns stats.total_donated equal to the sum of the amount
fields of all stored donations whose sponsor_id equals the caller's id,
and stats.children equal to the number of stored children whose
sponsored_by equals the caller's id; the operation performs no mutation of
the store. -/
theorem me_stats_exact (s : Store) (u : AuthUser) (sp : Sponsor)
    (h : findDoc s.sponsors u.id = some sp) :
    ((my_profile s u).1).map Profile.stats_total_donated =
      Except.ok ((getDocs s.donations (fun x => decide (x.2.sponsor_id = u.id))).map
        (fun x => x.2.amount)).sum ∧
    ((my_profile s u).1).map Profile.stats_children =
      Except.ok ((getDocs s.children (fun x => decide (x.2.sponsored_by = some u.id))).length) ∧
    (my_profile s u).2 = s := by
  refine ⟨?_, ?_, ?_⟩ <;> simp [my_profile, h, Except.map]

/-- Witness: at the fixture store, alice's dashboard shows total 5 (only
donation 3 is hers; donation 4 belongs to sponsor 9) and one child. -/
theorem me_stats_exact_witness :
    findDoc storeA.sponsors alice.id = some aliceSponsor ∧
    ((my_profile storeA alice).1).map Profile.stats_total_donated = Except.ok (5 : ℚ) ∧
    ((my_profile storeA alice).1).map Profile.stats_children = Except.ok 1 := by
  have h := me_stats_exact storeA alice aliceSponsor rfl
  refine ⟨rfl, ?_, ?_⟩
  · rw [h.1]
    simp [storeA, getDocs, alice, kidOwned, kidFree]
  · rw [h.2.1]
    simp [storeA, getDocs, alice, kidOwned, kidFree]

/-- C2: Claiming an already-sponsored child always fails — the Conflict
case of the error taxonomy, which the code raises as HTTPException 400
with detail "Child already sponsored" (the numeric status it is surfaced
under is the subject of the signup-conflict theorems) — and the store, in
particular the child's sponsored_by reference, is returned unchanged. -/
theorem sponsor_already_sponsored (s : Store) (u : AuthUser) (cid : Nat) (c : Child)
    (hc : findDoc s.children cid = some c) (hsp : c.sponsored = true) :
    sponsor_child s u cid = (.error (Err.http 400 ("Child already sponsored")), s) := by
  simp [sponsor_child, hc, hsp]

/-- Witness: claiming child 1 (already alice's) as mallory fails and
leaves the fixture store unchanged. -/
theorem sponsor_already_sponsored_witness :
    findDoc storeA.children 1 = some kidOwned ∧ kidOwned.sponsored = true ∧
    sponsor_child storeA mallory 1 =
      (.error (Err.http 400 ("Child already sponsored")), storeA) :=
  ⟨rfl, rfl, sponsor_already_sponsored storeA mallory 1 kidOwned rfl rfl⟩

/-- C3: POST /sponsor fails with NotFound (404) when the supplied child id
does not resolve to a stored child; when the child exists with
sponsored = false, the call succeeds and the stored child now has
sponsored = true and sponsored_by = the caller's id. -/
theorem sponsor_resolution (s : Store) (u : AuthUser) (cid : Nat) :
    (findDoc s.children cid = none →
      sponsor_child s u cid = (.error (Err.http 404 ("Child not found")), s)) ∧
    (∀ c : Child, findDoc s.children cid = some c → c.sponsored = false →
      (sponsor_child s u cid).1 = .ok () ∧
      findDoc ((sponsor_child s u cid).2).children cid =
        some ({ c with sponsored := true, sponsored_by := some u.id })) := by
  constructor
  · intro h
    simp [sponsor_child, h]
  · intro c hc hs
    constructor
    · simp [sponsor_child, hc, hs]
    · have hch : ((sponsor_child s u cid).2).children =
          setAssoc s.children cid ({ c with sponsored := true, sponsored_by := some u.id }) := by
        simp [sponsor_child, hc, hs]
      rw [hch]
      exact findDoc_setAssoc_self _ _ _ _ hc

/-- Witness: in the fixture store, claiming the absent child 99 gives 404,
and claiming the free child 2 as mallory succeeds and stores the child
sponsored by mallory. -/
theorem sponsor_resolution_witness :
    (findDoc storeA.children 99 = none ∧
      sponsor_child storeA alice 99 = (.error (Err.http 404 ("Child not found")), storeA)) ∧
    (findDoc storeA.children 2 = some kidFree ∧ kidFree.sponsored = false ∧
      (sponsor_child storeA mallory 2).1 = .ok () ∧
      findDoc ((sponsor_child storeA mallory 2).2).children 2 =
        some ({ kidFree with sponsored := true, sponsored_by := some mallory.id })) :=
  ⟨⟨rfl, (sponsor_resolution storeA alice 99).1 rfl⟩,
   ⟨rfl, rfl, ((sponsor_resolution storeA mallory 2).2 kidFree rfl rfl).1,
    ((sponsor_resolution storeA mallory 2).2 kidFree rfl rfl).2⟩⟩

/-- C4: No operation of the system ever clears or reassigns a child's
owning-sponsor reference once it is set: in every reachable store state,
if a stored child has sponsored_by = some sid, then after serving any
further request the child is still stored with sponsored_by = some sid. -/
theorem sponsoredBy_never_reassigned (s : Store) (hs : Reachable s) (a : Action)
    (i sid : Nat) (c : Child) (hc : findDoc s.children i = some c)
    (hsp : c.sponsored_by = some sid) :
    (findDoc ((applyAction s a).children) i).map Child.sponsored_by = some (some sid) := by
  have hinv := reachable_childInv s hs
  rw [findDoc_children_applyAction s hinv a i c hc (by simp [hsp])]
  simp [hsp]

/-- Witness: in a store reached by creating child 0 and claiming it for
alice, a second claim attempt by mallory leaves sponsored_by = some 0. -/
theorem sponsoredBy_never_reassigned_witness :
    findDoc reachedStore.children 0 = some kidOwned ∧
    kidOwned.sponsored_by = some 0 ∧
    (findDoc ((applyAction reachedStore (.sponsorChildA mallory 0)).children) 0).map
      Child.sponsored_by = some (some 0) :=
  ⟨rfl, rfl,
   sponsoredBy_never_reassigned reachedStore
     (Reachable.step _ (Reachable.step _ Reachable.init)) (.sponsorChildA mallory 0)
     0 0 kidOwned rfl rfl⟩

/-- C5: For a stored child whose sponsored_by differs from the caller's
id, POST /donations, POST /updates and GET /children/{id}/updates all fail
with Forbidden (403), and the failing create calls return the store
unchanged, so no document is persisted. -/
theorem nonowner_forbidden (s : Store) (u : AuthUser) (cid : Nat) (c : Child)
    (pd : DonationCreate) (pu : UpdateCreate)
    (hc : findDoc s.children cid = some c) (hne : c.sponsored_by ≠ some u.id)
    (hpd : pd.childId = cid) (hpu : pu.childId = cid) :
    create_donation s u pd = (.error (Err.http 403 ("You do not sponsor this child")), s) ∧
    create_update s u pu = (.error (Err.http 403 ("You do not sponsor this child")), s) ∧
    list_updates s u cid = .error (Err.http 403 ("You do not sponsor this child")) := by
  refine ⟨?_, ?_, ?_⟩ <;>
    simp [create_donation, create_update, list_updates, hpd, hpu, hc, hne]

/-- Witness: mallory, who does not own child 1, is rejected with 403 by
all three child-scoped operations on the fixture store. -/
theorem nonowner_forbidden_witness :
    findDoc storeA.children 1 = some kidOwned ∧
    kidOwned.sponsored_by ≠ some mallory.id ∧
    create_donation storeA mallory ({ childId := 1, amount := 3 }) =
      (.error (Err.http 403 ("You do not sponsor this child")), storeA) ∧
    create_update storeA mallory ({ childId := 1, title := "t" }) =
      (.error (Err.http 403 ("You do not sponsor this child")), storeA) ∧
    list_updates storeA mallory 1 = .error (Err.http 403 ("You do not sponsor this child")) := by
  have h := nonowner_forbidden storeA mallory 1 kidOwned
    ({ childId := 1, amount := 3 }) ({ childId := 1, title := "t" }) rfl (by decide) rfl rfl
  exact ⟨rfl, by decide, h.1, h.2.1, h.2.2⟩

/-- C6 counterexample: the claim requires the duplicate-email Conflict to
be surfaced as a 409-equivalent status distinct from the 400 bad-input
status; on the fixture store, signing up again with alice's email is
rejected with status exactly 400, refuting the distinctness. -/
theorem signup_conflict_status_counterexample :
    ¬ (∀ st : Nat, ∀ d : String,
        (signup storeA ({ name := "Bob", email := "a@x.com", password := "pw" }) "k2" "h2").1 =
          Except.error (Err.http st d) → st ≠ 400) := by
  intro h
  exact h 400 ("Email already registered") rfl rfl

/-- C6 amended: signup with the email of an already-stored sponsor always
fails regardless of the other field values and stores no new sponsor; the
failure is HTTPException 400 "Email already registered" — the same numeric
status the code uses for bad input, not a distinct 409-equivalent. -/
theorem signup_duplicate_email_rejected (s : Store) (p : SignupRequest) (k ph : String)
    (i : Nat) (sp : Sponsor) (hm : (i, sp) ∈ s.sponsors) (he : sp.email = p.email) :
    signup s p k ph = (.error (Err.http 400 ("Email already registered")), s) := by
  obtain ⟨y, hy⟩ := findByEmail_isSome s.sponsors p.email ⟨(i, sp), hm, he⟩
  simp [signup, hy]

/-- Witness: the duplicate signup with alice's email on the fixture store. -/
theorem signup_duplicate_email_rejected_witness :
    (0, aliceSponsor) ∈ storeA.sponsors ∧ aliceSponsor.email = ("a@x.com") ∧
    signup storeA ({ name := "Bob", email := "a@x.com", password := "pw" }) "k2" "h2" =
      (.error (Err.http 400 ("Email already registered")), storeA) :=
  ⟨by simp [storeA], rfl,
   signup_duplicate_email_rejected storeA
     ({ name := "Bob", email := "a@x.com", password := "pw" }) "k2" "h2" 0 aliceSponsor
     (by simp [storeA]) rfl⟩

/-- C7: creating a donation for child C as its owner sponsor S and then
listing donations as S yields a list containing that donation with the
submitted amount and currency. -/
theorem donation_roundtrip (s : Store) (u : AuthUser) (p : DonationCreate) (c : Child)
    (hc : findDoc s.children p.childId = some c)
    (hown : c.sponsored_by = some u.id) (hamt : 0 ≤ p.amount) :
    (create_donation s u p).1 = .ok s.nextId ∧
    ∃ dOut ∈ list_donations ((create_donation s u p).2) u,
      dOut.amount = p.amount ∧ dOut.currency = p.currency := by
  have hnn : ¬ p.amount < 0 := not_lt.mpr hamt
  have hres : create_donation s u p = (.ok s.nextId, { s with donations := createDoc s.donations s.nextId (donationOfCreate u p), nextId := s.nextId + 1 }) := by
    simp [create_donation, hc, hown, mkDonation, hnn, donationOfCreate]
  rw [hres]
  refine ⟨rfl, donationOut s.nextId (donationOfCreate u p), ?_, rfl, rfl⟩
  simp only [list_donations, getDocs, createDoc]
  have hmem : (s.nextId, donationOfCreate u p) ∈
      List.filter (fun x => decide (x.2.sponsor_id = u.id))
        (s.donations ++ [(s.nextId, donationOfCreate u p)]) :=
    List.mem_filter.mpr
      ⟨List.mem_append_right _ (List.mem_singleton_self _), by simp [donationOfCreate]⟩
  exact List.mem_map_of_mem (fun x => donationOut x.1 x.2) hmem

/-- Witness: alice donates 3 (default currency) for her child 1 on the
fixture store and finds it in her listing. -/
theorem donation_roundtrip_witness :
    findDoc storeA.children 1 = some kidOwned ∧
    kidOwned.sponsored_by = some alice.id ∧ (0 : ℚ) ≤ 3 ∧
    ((create_donation storeA alice ({ childId := 1, amount := 3 })).1 = .ok storeA.nextId ∧
      ∃ dOut ∈ list_donations ((create_donation storeA alice ({ childId := 1, amount := 3 })).2) alice,
        dOut.amount = 3 ∧ dOut.currency = "USD") :=
  ⟨rfl, rfl, by decide,
   donation_roundtrip storeA alice ({ childId := 1, amount := 3 }) kidOwned rfl rfl (by decide)⟩

/-- C8 counterexample: at the fixture store, the owner's donation of
amount -1 fails with the pydantic ValidationError raised at Donation
construction, not with an HTTPException of the 400 bad-input client status
the claim requires. -/
theorem donation_negative_not_http400 :
    (create_donation storeA alice ({ childId := 1, amount := -1 })).1 =
      Except.error Err.validation ∧
    ¬ (∃ d : String, (create_donation storeA alice ({ childId := 1, amount := -1 })).1 =
        Except.error (Err.http 400 d)) := by
  have he : (create_donation storeA alice ({ childId := 1, amount := -1 })).1 =
      Except.error Err.validation := by
    simp [create_donation, storeA, kidOwned, alice, mkDonation, findDoc, show (-1 : ℚ) < 0 by decide]
  refine ⟨he, ?_⟩
  rintro ⟨d, hd⟩
  rw [he] at hd
  exact Err.noConfusion (Except.error.inj hd)

/-- C8 amended: for an owner caller, a donation request with amount < 0
fails with the pydantic ValidationError raised when the Donation document
is constructed (an unhandled exception, not the 400 bad-input
HTTPException) and the store is returned unchanged, so no donation is
stored; and when the request leaves currency at its "USD" default, a
successful create stores the donation with currency "USD". -/
theorem donation_amount_validation (s : Store) (u : AuthUser) (p : DonationCreate) (c : Child)
    (hc : findDoc s.children p.childId = some c) (hown : c.sponsored_by = some u.id) :
    (p.amount < 0 → create_donation s u p = (.error Err.validation, s)) ∧
    (0 ≤ p.amount → p.currency = "USD" →
      (s.nextId, Donation.mk u.id p.childId p.amount ("USD") p.month ("completed")) ∈
        ((create_donation s u p).2).donations) := by
  constructor
  · intro hneg
    simp [create_donation, hc, hown, mkDonation, hneg]
  · intro hge hcur
    have hnn : ¬ p.amount < 0 := not_lt.mpr hge
    simp [create_donation, hc, hown, mkDonation, hnn, createDoc, hcur]

/-- Witness: on the fixture store, alice's donation of -1 for child 1 is
rejected as a validation error with the store unchanged, and her donation
of 3 with the currency default is stored with currency "USD". -/
theorem donation_amount_validation_witness :
    findDoc storeA.children 1 = some kidOwned ∧
    kidOwned.sponsored_by = some alice.id ∧ ((-1 : ℚ) < 0) ∧
    create_donation storeA alice ({ childId := 1, amount := -1 }) =
      (.error Err.validation, storeA) ∧
    (0 : ℚ) ≤ 3 ∧
    (storeA.nextId, Donation.mk alice.id 1 3 ("USD") none ("completed")) ∈
      ((create_donation storeA alice ({ childId := 1, amount := 3 })).2).donations := by
  have h1 := donation_amount_validation storeA alice ({ childId := 1, amount := -1 })
    kidOwned rfl rfl
  have h2 := donation_amount_validation storeA alice ({ childId := 1, amount := 3 })
    kidOwned rfl rfl
  exact ⟨rfl, rfl, by decide, h1.1 (by decide), by decide, h2.2 (by decide) rfl⟩

/-- C9 counterexample: GET /children with a supplied empty country string
returns children whose country is "US" (≠ ""), refuting exact-match
filtering for every supplied country value: Python truthiness makes the
empty string act as no filter. -/
theorem list_children_empty_country_counterexample :
    ¬ (∀ c ∈ list_children storeA (some ("")) none, c.country = ("")) := by
  decide

/-- C9 amended: GET /children requires no authentication (list_children
takes no caller identity at all) and returns exactly the stored children
passing both filters — exact sponsored-flag match whenever the flag is
supplied, exact country match whenever a NON-EMPTY country string is
supplied, a supplied empty string being falsy in Python and adding no
constraint — each document rendered with its identifier as a string. -/
theorem list_children_exact_filter (s : Store) (qc : Option String) (qs : Option Bool) :
    list_children s qc qs =
      (s.children.filter (fun x => countryPass qc x.2 && sponsoredPass qs x.2)).map
        (fun x => childOut x.1 x.2) := by
  cases qc with
  | none => cases qs <;> rfl
  | some v =>
    by_cases hv : v = "" <;> cases qs <;>
      simp [list_children, getDocs, countryPass, sponsoredPass, hv]

/-- C10: in every reachable store state, a stored child's sponsored flag
is true exactly when its owning-sponsor reference (sponsored_by) is
non-null: children are created with sponsored = false and sponsored_by =
null, and the only mutation of these fields — the sponsorship claim —
sets both together in one write. -/
theorem sponsored_iff_owner_set (s : Store) (hs : Reachable s) : ChildInv s :=
  reachable_childInv s hs

/-- Witness: in the two-step reachable store, the stored child is
sponsored and owned simultaneously. -/
theorem sponsored_iff_owner_set_witness :
    (0, kidOwned) ∈ reachedStore.children ∧
    (kidOwned.sponsored = true ↔ kidOwned.sponsored_by ≠ none) :=
  ⟨by decide,
   sponsored_iff_owner_set reachedStore
     (Reachable.step _ (Reachable.step _ Reachable.init)) (0, kidOwned) (by decide)⟩

end Charity
